import Mathlib

/-!
Formal model of the solar-system backdrop renderer (`main.js`) and proofs of
its documented properties.

The script is an IIFE that (1) gates on WebGL availability, (2) builds a
static scene (sun, eight planets from a descriptor table, orbit guide rings),
(3) runs a per-frame position update, and (4) drives an animation loop with a
reduced-motion pause/resume switch plus a resize handler.

The embedding is split into:
* the descriptor table `planetData` (lines 93-102 of the source);
* namespace `Sim`: the real-valued geometry of `updatePositions`
  (lines 156-163), with JS numbers modelled as real numbers;
* namespace `Driver`: the discrete event system — `startAnimation`,
  `stopAnimation`, `animate`, the media-query change listener, the resize
  listener and the startup branch (lines 150-203) — with the browser's frame
  scheduler modelled as a queue of pending callback handles.
-/

/-- One row of the `planetData` array: name, inner colour, outer colour,
orbit radius, visual size, angular speed, has-ring flag. -/
structure PlanetDescriptor where
  name : String
  color1 : String
  color2 : String
  orbitRadius : ℚ
  size : ℚ
  speed : ℚ
  hasRing : Bool
deriving DecidableEq

/-- The eight-row descriptor table, source lines 93-102. -/
def planetData : List PlanetDescriptor :=
  [⟨"Mercury", "#b2b2b2", "#6e6e6e", 9, 0.7, 0.018, false⟩,
   ⟨"Venus",   "#e0c16c", "#bfa24d", 12, 1.1, 0.014, false⟩,
   ⟨"Earth",   "#3a6ea5", "#1b3c5d", 16, 1.2, 0.012, false⟩,
   ⟨"Mars",    "#b5532a", "#7a2e13", 20, 1.0, 0.010, false⟩,
   ⟨"Jupiter", "#e0a96d", "#b57c3a", 26, 2.5, 0.008, false⟩,
   ⟨"Saturn",  "#d2c295", "#b3a178", 33, 2.2, 0.007, true⟩,
   ⟨"Uranus",  "#7ad7f0", "#3a8ca5", 39, 1.7, 0.006, true⟩,
   ⟨"Neptune", "#4062a7", "#22345d", 45, 1.7, 0.005, false⟩]

namespace Sim

/-- Runtime entry pushed by `addPlanets` (line 126): the mesh position (a
fresh `THREE.Mesh` starts at the origin), the orbit radius and speed copied
from the descriptor, the random phase, and the number of ring meshes attached
to the planet mesh (lines 113-124). -/
structure PlanetEntry where
  orbitRadius : ℝ
  speed : ℝ
  phase : ℝ
  posX : ℝ
  posY : ℝ
  posZ : ℝ
  rings : ℕ

/-- Construction of one planet entry from a descriptor and its sampled phase
(loop body of `addPlanets`, lines 106-127). -/
noncomputable def mkPlanet (d : PlanetDescriptor) (phase : ℝ) : PlanetEntry :=
  { orbitRadius := (d.orbitRadius : ℝ)
    speed := (d.speed : ℝ)
    phase := phase
    posX := 0
    posY := 0
    posZ := 0
    rings := if d.hasRing then 1 else 0 }

/-- The `addPlanets` loop over `planetData` (lines 104-129); the phases are
the values `Math.random() * Math.PI * 2` sampled once, taken as a parameter. -/
noncomputable def addPlanets (phases : List ℝ) : List PlanetEntry :=
  List.zipWith mkPlanet planetData phases

/-- Mutable scene state touched by `updatePositions`: the sun's y-rotation
accumulator and the planet entries. -/
structure SimState where
  sunRotY : ℝ
  planets : List PlanetEntry

/-- Scene state right after the build phase (lines 146-149): sun rotation 0,
planets as produced by `addPlanets`. -/
noncomputable def initSim (phases : List ℝ) : SimState :=
  { sunRotY := 0, planets := addPlanets phases }

/-- Per-planet body of `updatePositions` (lines 158-160):
`t = timeMs * speed * 0.5e-3 + phase`, then
`position.x = cos(t) * orbitRadius`, `position.z = sin(t) * orbitRadius`.
`position.y` is never written. -/
noncomputable def updatePlanet (timeMs : ℝ) (p : PlanetEntry) : PlanetEntry :=
  let t : ℝ := timeMs * p.speed * 0.0005 + p.phase
  { p with posX := Real.cos t * p.orbitRadius, posZ := Real.sin t * p.orbitRadius }

/-- The `updatePositions` function (lines 156-163): update every planet from
the time argument, then `sun.rotation.y += 0.002`. -/
noncomputable def updatePositions (timeMs : ℝ) (s : SimState) : SimState :=
  { sunRotY := s.sunRotY + 0.002
    planets := s.planets.map (updatePlanet timeMs) }

/-- A sequence of `updatePositions` invocations with the given time values,
oldest first. -/
noncomputable def applyUpdates (ts : List ℝ) (s : SimState) : SimState :=
  ts.foldl (fun a t => updatePositions t a) s

/-- Concrete planet entry used to exercise the periodicity theorem: Mercury's
orbit radius and speed with phase 0 and the mesh at the origin. -/
noncomputable def mercuryEntry : PlanetEntry :=
  { orbitRadius := 9, speed := 0.018, phase := 0
    posX := 0, posY := 0, posZ := 0, rings := 0 }

end Sim

namespace Driver

/-- Discrete state of the animation driver: the `reduceMotion` flag, the
`rafId` handle (0 = none, line 154), the browser's queue of pending
`requestAnimationFrame` callbacks together with the next fresh handle
(handles are positive), counters of `renderer.render` and `updatePositions`
calls, and the viewport numbers touched by `applySize` (lines 40-46). -/
structure DriverState where
  reduceMotion : Bool
  rafId : ℕ
  nextHandle : ℕ
  pending : List ℕ
  draws : ℕ
  updateCalls : ℕ
  width : ℚ
  height : ℚ
  pixelRatio : ℚ
  aspect : ℚ
deriving DecidableEq

/-- One `renderer.render(scene, camera)` call (`renderFrame`, lines 165-167). -/
def renderFrame (s : DriverState) : DriverState :=
  { s with draws := s.draws + 1 }

/-- Discrete shadow of `updatePositions`: it only counts the invocation; the
geometry it computes is modelled in namespace `Sim`. -/
def updateCall (s : DriverState) : DriverState :=
  { s with updateCalls := s.updateCalls + 1 }

/-- Browser primitive `requestAnimationFrame(cb)`: enqueue one callback and
return a fresh positive handle. -/
def requestFrame (s : DriverState) : ℕ × DriverState :=
  (s.nextHandle,
   { s with pending := s.pending ++ [s.nextHandle], nextHandle := s.nextHandle + 1 })

/-- Browser primitive `cancelAnimationFrame(h)`: remove the callback with
handle `h` from the queue. -/
def cancelFrame (h : ℕ) (s : DriverState) : DriverState :=
  { s with pending := s.pending.erase h }

/-- The value `window.devicePixelRatio || 1` (line 41): `none` models an
absent property and `0` is falsy, both yielding the default 1. -/
def effDpr : Option ℚ → ℚ
  | none => 1
  | some d => if d = 0 then 1 else d

/-- The `applySize` function (lines 40-46): clamp the pixel ratio at 2, store
the viewport size and set `camera.aspect = width / height`. -/
def applySize (w h : ℚ) (dpr : Option ℚ) (s : DriverState) : DriverState :=
  { s with pixelRatio := min (effDpr dpr) 2, width := w, height := h, aspect := w / h }

/-- The `animate` callback (lines 169-174): bail out if motion is reduced,
otherwise reschedule itself, update positions and draw. -/
def animate (s : DriverState) : DriverState :=
  if s.reduceMotion then s
  else
    let r := requestFrame s
    renderFrame (updateCall { r.2 with rafId := r.1 })

/-- The `startAnimation` function (lines 176-178): schedule a callback only
when no handle is held and motion is not reduced. -/
def startAnimation (s : DriverState) : DriverState :=
  if s.rafId = 0 ∧ s.reduceMotion = false then
    let r := requestFrame s
    { r.2 with rafId := r.1 }
  else s

/-- The `stopAnimation` function (lines 180-184): cancel the held handle if
any, clear it, and unconditionally draw one frame. -/
def stopAnimation (s : DriverState) : DriverState :=
  renderFrame { (if s.rafId ≠ 0 then cancelFrame s.rafId s else s) with rafId := 0 }

/-- Delivery of a queued frame: the browser dequeues the callback with handle
`h`, then runs `animate`. -/
def fireFrame (h : ℕ) (s : DriverState) : DriverState :=
  animate { s with pending := s.pending.erase h }

/-- The media-query change listener (lines 193-197): record the new flag,
then stop or start the loop. -/
def motionChange (b : Bool) (s : DriverState) : DriverState :=
  let s1 := { s with reduceMotion := b }
  if b then stopAnimation s1 else startAnimation s1

/-- The resize listener (lines 200-203): `applySize()` then one draw when
motion is reduced. -/
def resizeEvent (w h : ℚ) (dpr : Option ℚ) (s : DriverState) : DriverState :=
  let s1 := applySize w h dpr s
  if s1.reduceMotion then renderFrame s1 else s1

/-- Driver state after startup (lines 50 and 150-191): `applySize()` during
setup, `reduceMotion` from the media query, `rafId = 0`, empty queue; then
the initial branch renders one static frame (with `updatePositions(0)`) when
motion is reduced, and otherwise starts the loop. -/
def initDriver (b : Bool) (w h : ℚ) (dpr : Option ℚ) : DriverState :=
  let s0 : DriverState :=
    { reduceMotion := b, rafId := 0, nextHandle := 1, pending := []
      draws := 0, updateCalls := 0, width := 0, height := 0, pixelRatio := 1, aspect := 1 }
  let s1 := applySize w h dpr s0
  if b then renderFrame (updateCall s1) else startAnimation s1

/-- One event of the system after startup: delivery of a pending frame
callback, a motion-preference change, or a viewport resize. -/
inductive Step : DriverState → DriverState → Prop
  | frame (s : DriverState) (h : ℕ) (hh : h ∈ s.pending) : Step s (fireFrame h s)
  | motion (s : DriverState) (b : Bool) : Step s (motionChange b s)
  | resize (s : DriverState) (w ht : ℚ) (dpr : Option ℚ) : Step s (resizeEvent w ht dpr s)

/-- States reachable from startup by any sequence of events. -/
def Reachable (b : Bool) (w h : ℚ) (dpr : Option ℚ) (s : DriverState) : Prop :=
  Relation.ReflTransGen Step (initDriver b w h dpr) s

/-- Inductive invariant of the driver: when motion is reduced no handle is
held; the queue is empty when no handle is held and exactly the held handle
otherwise; handles are positive. -/
def Inv (s : DriverState) : Prop :=
  (s.reduceMotion = true → s.rafId = 0) ∧
  s.pending = (if s.rafId = 0 then [] else [s.rafId]) ∧
  1 ≤ s.nextHandle

/-- Concrete running driver state (one pending callback, handle 1) used to
exercise the stop/stop and start/start theorems. -/
def runningState : DriverState :=
  { reduceMotion := false, rafId := 1, nextHandle := 2, pending := [1]
    draws := 0, updateCalls := 0, width := 800, height := 600, pixelRatio := 1, aspect := 4 / 3 }

/-- Concrete paused driver state (no pending callback, motion not reduced,
as right after a change event set `reduceMotion` to false). -/
def pausedState : DriverState :=
  { reduceMotion := false, rafId := 0, nextHandle := 5, pending := []
    draws := 3, updateCalls := 2, width := 800, height := 600, pixelRatio := 1, aspect := 4 / 3 }

end Driver

/-- Observable page state around the component: whether the canvas is hidden
(its display style set to none, line 29), the fallback panel's hidden flag and
text, the number of objects added to the scene graph, and the driver state
(`none` when the script returned before installing any listener or loop). -/
structure Page where
  canvasHidden : Bool
  fallbackHidden : Bool
  fallbackText : Option String
  sceneObjects : ℕ
  driver : Option Driver.DriverState

/-- The message passed to `showFallback` at line 30. -/
def unavailableMessage : String := "3D background isn\x27t available on this device."

/-- The `showFallback` function (lines 13-17): no-op when the fallback
element is absent; otherwise set the text (when a message is given) and clear
the `hidden` flag. -/
def showFallback (fallbackPresent : Bool) (message : Option String) (p : Page) : Page :=
  if fallbackPresent then
    { p with
      fallbackText := match message with | some m => some m | none => p.fallbackText
      fallbackHidden := false }
  else p

/-- The `isWebGLAvailable` function (lines 19-26): the two `getContext`
attempts either throw (`Except.error`) or return two nullable contexts; the
result is the truthiness of `ctx1 || ctx2`, and `false` on a throw. -/
def isWebGLAvailable (gl : Except Unit (Option Unit × Option Unit)) : Bool :=
  match gl with
  | .error _ => false
  | .ok (c1, c2) => c1.isSome || c2.isSome

/-- Number of objects constructed for the scene graph when the build phase
runs (lines 55, 79-149): ambient light, sun mesh, point light, one mesh per
descriptor, one ring mesh per ring-flagged descriptor, one orbit guide per
descriptor. -/
def sceneObjectCount : ℕ :=
  3 + planetData.length + (planetData.countP fun d => d.hasRing) + planetData.length

/-- Whole-script startup (lines 8-203): return immediately when the canvas is
absent (line 11); on a failed capability gate hide the canvas, show the
fallback and return (lines 28-32); otherwise build the scene and initialise
the driver. -/
def initPage (canvasPresent fallbackPresent : Bool)
    (gl : Except Unit (Option Unit × Option Unit))
    (b : Bool) (w h : ℚ) (dpr : Option ℚ) : Page :=
  if canvasPresent = false then
    { canvasHidden := false, fallbackHidden := true, fallbackText := none
      sceneObjects := 0, driver := none }
  else if isWebGLAvailable gl = false then
    showFallback fallbackPresent (some unavailableMessage)
      { canvasHidden := true, fallbackHidden := true, fallbackText := none
        sceneObjects := 0, driver := none }
  else
    { canvasHidden := false, fallbackHidden := true, fallbackText := none
      sceneObjects := sceneObjectCount, driver := some (Driver.initDriver b w h dpr) }

/-- One event on the page: only possible when the driver is installed. -/
inductive PageStep : Page → Page → Prop
  | drv (p : Page) (s s' : Driver.DriverState) (hp : p.driver = some s)
      (hs : Driver.Step s s') : PageStep p { p with driver := some s' }


namespace Sim

theorem applyUpdates_nil (s : SimState) : applyUpdates [] s = s := rfl

theorem applyUpdates_cons (t : ℝ) (ts : List ℝ) (s : SimState) :
    applyUpdates (t :: ts) s = applyUpdates ts (updatePositions t s) := rfl

theorem applyUpdates_append (ts us : List ℝ) (s : SimState) :
    applyUpdates (ts ++ us) s = applyUpdates us (applyUpdates ts s) := by
  simp [applyUpdates, List.foldl_append]

theorem updatePlanet_orbitRadius (t : ℝ) (p : PlanetEntry) :
    (updatePlanet t p).orbitRadius = p.orbitRadius := rfl

theorem updatePlanet_posY (t : ℝ) (p : PlanetEntry) :
    (updatePlanet t p).posY = p.posY := rfl

theorem updatePlanet_updatePlanet (t u : ℝ) (p : PlanetEntry) :
    updatePlanet t (updatePlanet u p) = updatePlanet t p := rfl

theorem applyUpdates_map_orbitRadius (ts : List ℝ) (s : SimState) :
    (applyUpdates ts s).planets.map PlanetEntry.orbitRadius
      = s.planets.map PlanetEntry.orbitRadius := by
  induction ts generalizing s with
  | nil => rfl
  | cons t ts ih =>
    rw [applyUpdates_cons, ih]
    simp only [updatePositions, List.map_map]
    rfl

theorem applyUpdates_posY_mem (ts : List ℝ) (s : SimState)
    (h : ∀ p ∈ s.planets, p.posY = 0) :
    ∀ p ∈ (applyUpdates ts s).planets, p.posY = 0 := by
  induction ts generalizing s with
  | nil => exact h
  | cons t ts ih =>
    rw [applyUpdates_cons]
    refine ih _ ?_
    intro p hp
    simp only [updatePositions, List.mem_map] at hp
    obtain ⟨q, hq, rfl⟩ := hp
    rw [updatePlanet_posY]
    exact h q hq

theorem zipWith_mkPlanet_posY :
    ∀ (ds : List PlanetDescriptor) (φs : List ℝ) (p : PlanetEntry),
      p ∈ List.zipWith mkPlanet ds φs → p.posY = 0 := by
  intro ds
  induction ds with
  | nil => intro φs p hp; simp at hp
  | cons d ds ih =>
    intro φs p hp
    cases φs with
    | nil => simp at hp
    | cons φ φs =>
      simp only [List.zipWith_cons_cons, List.mem_cons] at hp
      rcases hp with rfl | hp
      · rfl
      · exact ih φs p hp

theorem addPlanets_posY (phases : List ℝ) :
    ∀ p ∈ addPlanets phases, p.posY = 0 :=
  fun p hp => zipWith_mkPlanet_posY planetData phases p hp

theorem zipWith_mkPlanet_map_orbitRadius :
    ∀ (ds : List PlanetDescriptor) (φs : List ℝ), ds.length ≤ φs.length →
      (List.zipWith mkPlanet ds φs).map PlanetEntry.orbitRadius
        = ds.map fun d => ((d.orbitRadius : ℚ) : ℝ) := by
  intro ds
  induction ds with
  | nil => intro φs _; rfl
  | cons d ds ih =>
    intro φs h
    cases φs with
    | nil => simp at h
    | cons φ φs =>
      simp only [List.zipWith_cons_cons, List.map_cons]
      rw [ih φs (by simpa using h)]
      rfl

end Sim

/-- C1: for every one of the 8 planet descriptors and every time value, the
position computed by the per-frame update places the planet at exact distance
orbitRadius from the origin in the horizontal orbital plane: after any update
history ending in an invocation at time t, the eight entries carry exactly the
descriptor table's orbit radii, and each entry satisfies
posX^2 + posZ^2 = orbitRadius^2 and posY = 0. -/
theorem planet_positions_on_orbit (phases ts : List ℝ) (t : ℝ)
    (hlen : phases.length = 8) :
    ((Sim.applyUpdates (ts ++ [t]) (Sim.initSim phases)).planets.map
        Sim.PlanetEntry.orbitRadius
      = planetData.map fun d => ((d.orbitRadius : ℚ) : ℝ))
    ∧ ∀ p ∈ (Sim.applyUpdates (ts ++ [t]) (Sim.initSim phases)).planets,
        p.posX ^ 2 + p.posZ ^ 2 = p.orbitRadius ^ 2 ∧ p.posY = 0 := by
  constructor
  · rw [Sim.applyUpdates_map_orbitRadius]
    show (Sim.addPlanets phases).map _ = _
    apply Sim.zipWith_mkPlanet_map_orbitRadius
    rw [hlen]
    decide
  · rw [Sim.applyUpdates_append]
    intro p hp
    have hsingle : Sim.applyUpdates [t] (Sim.applyUpdates ts (Sim.initSim phases))
        = Sim.updatePositions t (Sim.applyUpdates ts (Sim.initSim phases)) := rfl
    rw [hsingle] at hp
    simp only [Sim.updatePositions, List.mem_map] at hp
    obtain ⟨q, hq, rfl⟩ := hp
    refine ⟨?_, ?_⟩
    · simp only [Sim.updatePlanet]
      rw [mul_pow, mul_pow, ← add_mul, Real.cos_sq_add_sin_sq, one_mul]
    · rw [Sim.updatePlanet_posY]
      exact Sim.applyUpdates_posY_mem ts _ (Sim.addPlanets_posY phases) q hq

theorem planet_positions_on_orbit_witness :
    (List.replicate 8 (0 : ℝ)).length = 8 ∧
    (((Sim.applyUpdates ([] ++ [0]) (Sim.initSim (List.replicate 8 (0 : ℝ)))).planets.map
        Sim.PlanetEntry.orbitRadius
      = planetData.map fun d => ((d.orbitRadius : ℚ) : ℝ))
    ∧ ∀ p ∈ (Sim.applyUpdates ([] ++ [0]) (Sim.initSim (List.replicate 8 (0 : ℝ)))).planets,
        p.posX ^ 2 + p.posZ ^ 2 = p.orbitRadius ^ 2 ∧ p.posY = 0) :=
  ⟨by simp, planet_positions_on_orbit (List.replicate 8 0) [] 0 (by simp)⟩

/-- C5: the computed planet position is periodic in the time argument with
period 2π / (speed × 0.0005): every descriptor has a nonzero speed, and for
any planet entry with nonzero speed the update at t + period equals the
update at t (exactly, in the real-number model). -/
theorem planet_position_periodic :
    (∀ d ∈ planetData, d.speed ≠ 0) ∧
    ∀ (p : Sim.PlanetEntry) (t : ℝ), p.speed ≠ 0 →
      Sim.updatePlanet (t + 2 * Real.pi / (p.speed * 0.0005)) p
        = Sim.updatePlanet t p := by
  constructor
  · intro d hd
    fin_cases hd <;> norm_num
  · intro p t h
    have h5 : (0.0005 : ℝ) ≠ 0 := by norm_num
    have key : (t + 2 * Real.pi / (p.speed * 0.0005)) * p.speed * 0.0005 + p.phase
        = (t * p.speed * 0.0005 + p.phase) + 2 * Real.pi := by
      field_simp
      ring
    simp only [Sim.updatePlanet]
    rw [key, Real.cos_add_two_pi, Real.sin_add_two_pi]

theorem planet_position_periodic_witness :
    Sim.updatePlanet (0 + 2 * Real.pi / (Sim.mercuryEntry.speed * 0.0005)) Sim.mercuryEntry
      = Sim.updatePlanet 0 Sim.mercuryEntry :=
  planet_position_periodic.2 Sim.mercuryEntry 0 (by norm_num [Sim.mercuryEntry])

/-- C7: every invocation of the position update advances the sun's
self-rotation by exactly 0.002 radians independently of the time argument —
after the invocations listed in ts the accumulator has advanced by
0.002 × ts.length — while the planet entries after a history ending at time t
equal those of a single update at t. -/
theorem sun_rotation_per_call (ts : List ℝ) (s : Sim.SimState) :
    ((Sim.applyUpdates ts s).sunRotY = s.sunRotY + 0.002 * (ts.length : ℝ))
    ∧ ∀ t : ℝ, (Sim.applyUpdates (ts ++ [t]) s).planets
        = (Sim.updatePositions t s).planets := by
  constructor
  · induction ts generalizing s with
    | nil => simp [Sim.applyUpdates_nil]
    | cons u ts ih =>
      rw [Sim.applyUpdates_cons, ih]
      show (s.sunRotY + 0.002) + _ = _
      simp only [List.length_cons]
      push_cast
      ring
  · intro t
    rw [Sim.applyUpdates_append]
    show ((Sim.applyUpdates ts s).planets).map _ = _
    induction ts generalizing s with
    | nil => rfl
    | cons u ts ih =>
      rw [Sim.applyUpdates_cons, ih]
      show ((s.planets.map _).map _) = _
      rw [List.map_map]
      rfl

namespace Sim

theorem zipWith_mkPlanet_countP_rings :
    ∀ (ds : List PlanetDescriptor) (φs : List ℝ), ds.length ≤ φs.length →
      ((List.zipWith mkPlanet ds φs).countP fun p => p.rings == 1)
        = ds.countP fun d => d.hasRing := by
  intro ds
  induction ds with
  | nil => intro φs _; rfl
  | cons d ds ih =>
    intro φs h
    cases φs with
    | nil => simp at h
    | cons φ φs =>
      simp only [List.zipWith_cons_cons, List.countP_cons]
      rw [ih φs (by simpa using h)]
      cases hd : d.hasRing <;> simp [mkPlanet, hd]

end Sim

/-- C4 counterexample: the descriptor table does not have exactly one
ring-flagged row — both Saturn and Uranus carry the flag. -/
theorem ring_flag_count_not_one :
    ¬ ((planetData.filter fun d => d.hasRing).length = 1) := by decide

/-- C4 amended: exactly two of the eight celestial body descriptors (Saturn
and Uranus) have the has-ring flag set, so exactly two planets are
constructed with an attached ring mesh. -/
theorem two_ringed_planets :
    ((planetData.filter fun d => d.hasRing).map PlanetDescriptor.name
      = ["Saturn", "Uranus"])
    ∧ ∀ φs : List ℝ, φs.length = 8 →
        ((Sim.addPlanets φs).countP fun p => p.rings == 1) = 2 := by
  constructor
  · decide
  · intro φs h
    show ((List.zipWith _ planetData φs).countP _) = 2
    rw [Sim.zipWith_mkPlanet_countP_rings planetData φs (by rw [h]; decide)]
    decide

theorem two_ringed_planets_witness :
    (List.replicate 8 (0 : ℝ)).length = 8 ∧
    ((Sim.addPlanets (List.replicate 8 (0 : ℝ))).countP fun p => p.rings == 1) = 2 :=
  ⟨by simp, two_ringed_planets.2 (List.replicate 8 0) (by simp)⟩

/-- C3 counterexample: from the concrete running state, stopping twice
performs two extra draws rather than one, and the second stop is not a
no-op (it changes the state by drawing again). -/
theorem stop_twice_draws_twice :
    (Driver.stopAnimation (Driver.stopAnimation Driver.runningState)).draws
        ≠ Driver.runningState.draws + 1
    ∧ Driver.stopAnimation (Driver.stopAnimation Driver.runningState)
        ≠ Driver.stopAnimation Driver.runningState := by
  refine ⟨by decide, fun h => ?_⟩
  exact absurd (congrArg Driver.DriverState.draws h) (by decide)

/-- C3 amended: invoking stop twice from a running state leaves exactly zero
pending callbacks and a cleared handle, but performs two extra draw calls
(one per invocation); the second invocation cancels nothing, yet still
issues a draw, so it equals one extra render on top of the first stop. -/
theorem stop_stop_behaviour (s : Driver.DriverState)
    (h1 : s.rafId ≠ 0) (h2 : s.pending = [s.rafId]) :
    (Driver.stopAnimation (Driver.stopAnimation s)).pending = []
    ∧ (Driver.stopAnimation (Driver.stopAnimation s)).rafId = 0
    ∧ (Driver.stopAnimation (Driver.stopAnimation s)).draws = s.draws + 2
    ∧ Driver.stopAnimation (Driver.stopAnimation s)
        = Driver.renderFrame (Driver.stopAnimation s) := by
  simp [Driver.stopAnimation, Driver.renderFrame, Driver.cancelFrame, h1, h2]

theorem stop_stop_behaviour_witness :
    Driver.runningState.rafId ≠ 0
    ∧ Driver.runningState.pending = [Driver.runningState.rafId]
    ∧ ((Driver.stopAnimation (Driver.stopAnimation Driver.runningState)).pending = []
      ∧ (Driver.stopAnimation (Driver.stopAnimation Driver.runningState)).rafId = 0
      ∧ (Driver.stopAnimation (Driver.stopAnimation Driver.runningState)).draws
          = Driver.runningState.draws + 2
      ∧ Driver.stopAnimation (Driver.stopAnimation Driver.runningState)
          = Driver.renderFrame (Driver.stopAnimation Driver.runningState)) :=
  ⟨by decide, by decide, stop_stop_behaviour Driver.runningState (by decide) (by decide)⟩

/-- C6: invoking start twice in a row from a paused state with motion not
reduced schedules exactly one pending frame callback, and the second start
invocation is a no-op. -/
theorem start_twice_schedules_once (s : Driver.DriverState)
    (h0 : s.rafId = 0) (hm : s.reduceMotion = false)
    (hp : s.pending = []) (hn : 1 ≤ s.nextHandle) :
    (Driver.startAnimation (Driver.startAnimation s)).pending.length = 1
    ∧ Driver.startAnimation (Driver.startAnimation s) = Driver.startAnimation s := by
  have hs1 : Driver.startAnimation s
      = { s with rafId := s.nextHandle, pending := s.pending ++ [s.nextHandle],
                 nextHandle := s.nextHandle + 1 } := by
    simp [Driver.startAnimation, Driver.requestFrame, h0, hm]
  have key : Driver.startAnimation (Driver.startAnimation s)
      = Driver.startAnimation s := by
    rw [hs1]
    simp [Driver.startAnimation]
    omega
  refine ⟨?_, key⟩
  rw [key, hs1, hp]
  rfl

theorem start_twice_schedules_once_witness :
    Driver.pausedState.rafId = 0
    ∧ Driver.pausedState.reduceMotion = false
    ∧ Driver.pausedState.pending = []
    ∧ 1 ≤ Driver.pausedState.nextHandle
    ∧ ((Driver.startAnimation (Driver.startAnimation Driver.pausedState)).pending.length = 1
      ∧ Driver.startAnimation (Driver.startAnimation Driver.pausedState)
          = Driver.startAnimation Driver.pausedState) :=
  ⟨by decide, by decide, by decide, by decide,
   start_twice_schedules_once Driver.pausedState (by decide) (by decide) (by decide) (by decide)⟩

namespace Driver

theorem inv_init (b : Bool) (w h : ℚ) (dpr : Option ℚ) :
    Inv (initDriver b w h dpr) := by
  cases b <;>
    simp [initDriver, applySize, startAnimation, requestFrame, renderFrame,
          updateCall, Inv]

theorem inv_step {s s' : DriverState} (hs : Inv s) (hstep : Step s s') : Inv s' := by
  obtain ⟨hrm, hpend, hnext⟩ := hs
  cases hstep with
  | frame h hh =>
    by_cases hz : s.rafId = 0
    · rw [if_pos hz] at hpend
      rw [hpend] at hh
      simp at hh
    · have hpend' : s.pending = [s.rafId] := by rwa [if_neg hz] at hpend
      have hrm' : s.reduceMotion = false := by
        cases hreduce : s.reduceMotion
        · rfl
        · exact absurd (hrm hreduce) hz
      have hh' : h = s.rafId := by
        rw [hpend'] at hh
        simpa using hh
      have hnz : s.nextHandle ≠ 0 := by omega
      simp only [fireFrame, animate, requestFrame, renderFrame, updateCall,
                 hrm', hh', hpend', Inv]
      simp [List.erase_cons_head, hnz]
  | motion b =>
    cases b with
    | true =>
      simp only [motionChange, stopAnimation, cancelFrame, renderFrame, Inv]
      by_cases hz : s.rafId = 0
      · rw [if_pos hz] at hpend
        simp [hz, hpend]
        omega
      · have hpend' : s.pending = [s.rafId] := by rwa [if_neg hz] at hpend
        simp [hz, hpend', List.erase_cons_head]
        omega
    | false =>
      have hnz : s.nextHandle ≠ 0 := by omega
      simp only [motionChange, startAnimation, requestFrame, Inv]
      by_cases hz : s.rafId = 0
      · rw [if_pos hz] at hpend
        simp [hz, hpend, hnz]
      · have hpend' : s.pending = [s.rafId] := by rwa [if_neg hz] at hpend
        simp [hz, hpend']
        omega
  | resize w ht dpr =>
    simp only [resizeEvent, applySize, renderFrame, Inv]
    by_cases hrm' : s.reduceMotion = true <;> simp [hrm', hpend, hnext, hrm]

theorem reachable_inv (b : Bool) (w h : ℚ) (dpr : Option ℚ)
    {s : DriverState} (hr : Reachable b w h dpr s) : Inv s := by
  induction hr with
  | refl => exact inv_init b w h dpr
  | tail _ hstep ih => exact inv_step ih hstep

end Driver

/-- C9: in every state reachable by any sequence of events from startup, at
most one frame callback is pending. -/
theorem at_most_one_pending (b : Bool) (w h : ℚ) (dpr : Option ℚ)
    (s : Driver.DriverState) (hr : Driver.Reachable b w h dpr s) :
    s.pending.length ≤ 1 := by
  obtain ⟨-, hpend, -⟩ := Driver.reachable_inv b w h dpr hr
  rw [hpend]
  split <;> simp

theorem at_most_one_pending_witness :
    (Driver.initDriver true 800 600 (some 1)).pending.length ≤ 1 :=
  at_most_one_pending true 800 600 (some 1) _ Relation.ReflTransGen.refl

/-- C10: in every reachable state, if the reduced-motion flag is true then
the callback handle is the none value 0 and no frame callback is pending. -/
theorem reduced_motion_no_pending (b : Bool) (w h : ℚ) (dpr : Option ℚ)
    (s : Driver.DriverState) (hr : Driver.Reachable b w h dpr s)
    (hm : s.reduceMotion = true) :
    s.rafId = 0 ∧ s.pending = [] := by
  obtain ⟨hrm, hpend, -⟩ := Driver.reachable_inv b w h dpr hr
  have h0 := hrm hm
  exact ⟨h0, by rw [hpend, if_pos h0]⟩

theorem reduced_motion_no_pending_witness :
    (Driver.initDriver true 800 600 (some 1)).rafId = 0
    ∧ (Driver.initDriver true 800 600 (some 1)).pending = [] :=
  reduced_motion_no_pending true 800 600 (some 1) _ Relation.ReflTransGen.refl rfl

/-- C8: a resize event applies the device pixel ratio capped at 2, sets the
camera aspect ratio to width/height, and issues one synchronous redraw if and
only if motion is reduced (the PAUSED state); in particular with device pixel
ratio 3 and an 800×600 window the applied ratio is 2 and the aspect 800/600. -/
theorem resize_behaviour (s : Driver.DriverState) (w h : ℚ) (dpr : Option ℚ) :
    (Driver.resizeEvent w h dpr s).pixelRatio = min (Driver.effDpr dpr) 2
    ∧ (Driver.resizeEvent w h dpr s).aspect = w / h
    ∧ (Driver.resizeEvent w h dpr s).draws
        = s.draws + (if s.reduceMotion then 1 else 0)
    ∧ ((Driver.resizeEvent w h dpr s).draws = s.draws + 1 ↔ s.reduceMotion = true)
    ∧ (Driver.resizeEvent 800 600 (some 3) s).pixelRatio = 2
    ∧ (Driver.resizeEvent 800 600 (some 3) s).aspect = 800 / 600 := by
  cases hrm : s.reduceMotion <;>
    simp [Driver.resizeEvent, Driver.applySize, Driver.renderFrame,
          Driver.effDpr, hrm] <;>
    norm_num [min_def]

/-- C2: when capability acquisition returns nothing or throws (with the
canvas and fallback elements present), startup hides the canvas, reveals the
fallback panel with the configured unavailability message, constructs no
scene objects, installs no driver, and admits no further event — so no frame
callback is ever scheduled. -/
theorem gate_failure_fallback (gl : Except Unit (Option Unit × Option Unit))
    (b : Bool) (w h : ℚ) (dpr : Option ℚ)
    (hgl : gl = Except.error () ∨ gl = Except.ok (none, none)) :
    (initPage true true gl b w h dpr).canvasHidden = true
    ∧ (initPage true true gl b w h dpr).fallbackHidden = false
    ∧ (initPage true true gl b w h dpr).fallbackText = some unavailableMessage
    ∧ (initPage true true gl b w h dpr).sceneObjects = 0
    ∧ (initPage true true gl b w h dpr).driver = none
    ∧ ∀ p', ¬ PageStep (initPage true true gl b w h dpr) p' := by
  have hav : isWebGLAvailable gl = false := by
    rcases hgl with rfl | rfl <;> rfl
  have hpage : initPage true true gl b w h dpr
      = { canvasHidden := true, fallbackHidden := false
          fallbackText := some unavailableMessage, sceneObjects := 0
          driver := none } := by
    simp [initPage, hav, showFallback]
  refine ⟨by rw [hpage], by rw [hpage], by rw [hpage], by rw [hpage], by rw [hpage], ?_⟩
  intro p' hstep
  cases hstep with
  | drv s s' hp hs =>
    rw [hpage] at hp
    exact Option.noConfusion hp

theorem gate_failure_fallback_witness :
    ((Except.ok (none, none) : Except Unit (Option Unit × Option Unit))
        = Except.error ()
      ∨ (Except.ok (none, none) : Except Unit (Option Unit × Option Unit))
        = Except.ok (none, none))
    ∧ ((initPage true true (Except.ok (none, none)) false 800 600 (some 1)).canvasHidden = true
      ∧ (initPage true true (Except.ok (none, none)) false 800 600 (some 1)).fallbackHidden = false
      ∧ (initPage true true (Except.ok (none, none)) false 800 600 (some 1)).fallbackText
          = some unavailableMessage
      ∧ (initPage true true (Except.ok (none, none)) false 800 600 (some 1)).sceneObjects = 0
      ∧ (initPage true true (Except.ok (none, none)) false 800 600 (some 1)).driver = none
      ∧ ∀ p', ¬ PageStep (initPage true true (Except.ok (none, none)) false 800 600 (some 1)) p') :=
  ⟨Or.inr rfl,
   gate_failure_fallback (Except.ok (none, none)) false 800 600 (some 1) (Or.inr rfl)⟩
